import Mathlib

/-!
Shallow embedding of the Taskify authentication bootstrap and route
authorization core (src/src/App.tsx), together with the auth-state
reducers and the ProtectedRoute guard that the spec describes.

Conventions of the embedding:
- A verification endpoint is a function from the token string to
  `Except Unit (Option User)`: `Except.error ()` models a thrown
  exception, `Except.ok none` models the call returning null, and
  `Except.ok (some u)` models a resolved account.
- The bootstrap is modelled as a pure function from an environment
  (persistent storage content plus the two endpoints) and the current
  auth state to a result record carrying the final auth state, the
  final storage content, and the ordered list of network calls issued.
-/

/-- A verified account record as returned by a verification endpoint.
It carries the credential field that App.tsx strips before storing. -/
structure User where
  id : Nat
  role : String
  password : String
deriving DecidableEq

/-- The identity actually stored in the session: the account record
without its credential field, mirroring the rest-spread
`let (password, ...userWithoutPassword) = user` in App.tsx line 76. -/
structure UserPublic where
  id : Nat
  role : String
deriving DecidableEq

/-- The destructuring on App.tsx line 76: remove exactly the
`password` key and keep every other attribute. -/
def stripPassword (u : User) : UserPublic :=
  { id := u.id, role := u.role }

/-- Modelled from the spec: the redux auth slice state
(src/redux/reducers/authSlice is not among the provided sources).
Section 3 of the spec gives Session as token, identity and a loading
flag; App.tsx additionally reads `isAuthenticated` and `isLoading`
from this state. -/
structure AuthState where
  isAuthenticated : Bool
  isLoading : Bool
  user : Option UserPublic
  token : Option String
deriving DecidableEq

/-- Modelled from the spec: the `setCredentials` reducer. On
acceptance the session holds the public identity plus the original
token, is authenticated, and loading is over (spec sections 4.1
and 8, example scenario). -/
def setCredentials (u : UserPublic) (tok : String) (s : AuthState) : AuthState :=
  { s with isAuthenticated := true, isLoading := false,
           user := some u, token := some tok }

/-- Modelled from the spec: the `finishInitialLoad` reducer ends the
initial loading phase and changes nothing else. -/
def finishInitialLoad (s : AuthState) : AuthState :=
  { s with isLoading := false }

/-- The session as created empty at process start: unauthenticated,
loading, no identity, no token (spec section 3). -/
def initialAuthState : AuthState :=
  { isAuthenticated := false, isLoading := true, user := none, token := none }

/-- One network verification call issued during bootstrap, tagged with
the domain it probes and the token it carries. -/
inductive Call where
  | user (token : String)
  | org (token : String)
deriving DecidableEq

/-- External collaborators of the bootstrap: the persistent storage
slot read by `localStorage.getItem` and the two verification
endpoints imported from the api module. -/
structure Env where
  storage : Option String
  verifyToken : String → Except Unit (Option User)
  verifyOrgToken : String → Except Unit (Option User)

/-- Outcome of one bootstrap run: final auth state, final storage
content, and the ordered list of verification calls issued. -/
structure BootstrapResult where
  state : AuthState
  storage : Option String
  calls : List Call
deriving DecidableEq

/-- Shallow embedding of `initAuth` (App.tsx lines 63 to 93).

The source reads the token, and when it is truthy (a nonempty string)
and the session is not yet authenticated, awaits `verifyToken`; a null
result falls through to `verifyOrgToken`; a non-null result from
either is stored via `setCredentials` after stripping the password;
a double null removes the token and dispatches `finishInitialLoad`;
any exception thrown inside the try block is caught, removes the
token, and dispatches `finishInitialLoad`. Every other entry path
(no token, falsy token, already authenticated) dispatches
`finishInitialLoad` with no network call. -/
def initAuth (env : Env) (s : AuthState) : BootstrapResult :=
  match env.storage with
  | none => { state := finishInitialLoad s, storage := env.storage, calls := [] }
  | some token =>
    if token = "" ∨ s.isAuthenticated = true then
      { state := finishInitialLoad s, storage := env.storage, calls := [] }
    else
      match env.verifyToken token with
      | Except.error _ =>
        { state := finishInitialLoad s, storage := none, calls := [Call.user token] }
      | Except.ok (some u) =>
        { state := setCredentials (stripPassword u) token s,
          storage := env.storage, calls := [Call.user token] }
      | Except.ok none =>
        match env.verifyOrgToken token with
        | Except.error _ =>
          { state := finishInitialLoad s, storage := none,
            calls := [Call.user token, Call.org token] }
        | Except.ok (some u) =>
          { state := setCredentials (stripPassword u) token s,
            storage := env.storage, calls := [Call.user token, Call.org token] }
        | Except.ok none =>
          { state := finishInitialLoad s, storage := none,
            calls := [Call.user token, Call.org token] }

/-- The role switch of `DashboardRedirect` (App.tsx lines 36 to 52):
for a given role string it returns the navigation target together
with the list of routes scheduled for fire-and-forget prefetch via
`setTimeout(preloadRoute, 0)`. The prefetch list is inert data: the
returned route is decided by the switch alone. -/
def dashboardRedirectRoute (role : String) : String × List String :=
  if role = "Admin" then
    ("/dashboard/admin/tasks", ["/dashboard/admin"])
  else if role = "Organisation" then
    ("/dashboard/organisation", ["/dashboard/organisation"])
  else
    ("/dashboard/user", [])

/-- A navigation instruction: target path and whether history-replace
semantics are used. -/
structure Navigation where
  target : String
  replace : Bool
deriving DecidableEq

/-- The effect of `DashboardRedirect`: when a user is present,
`navigate(route, replace true)` with the route from the role switch;
no navigation when the user is null. -/
def dashboardRedirectNav (user : Option UserPublic) : Option Navigation :=
  match user with
  | none => none
  | some u => some { target := (dashboardRedirectRoute u.role).1, replace := true }

/-- Decision of the route authorizer. -/
inductive AuthzDecision where
  | Unknown
  | Denied
  | Allowed
deriving DecidableEq

/-- Modelled from the spec: the ProtectedRoute component
(src/components/ProtectedRoute) is not among the provided sources;
section 4.2 of the spec gives its transition function: loading gives
Unknown, an unresolved identity or a role outside the allowed set
gives Denied, and a resolved identity whose role is in the allowed
set gives Allowed. -/
def authorize (s : AuthState) (requiredRoles : List String) : AuthzDecision :=
  if s.isLoading = true then
    AuthzDecision.Unknown
  else
    match s.user with
    | none => AuthzDecision.Denied
    | some u =>
      if u.role ∈ requiredRoles then AuthzDecision.Allowed else AuthzDecision.Denied

/-- Modelled from the spec: the unauthenticated entry route, the
single redirect target for every Denied outcome (spec section 4.2). -/
def deniedRedirect : String := "/auth"

/-- Modelled from the spec: the redirect emitted by ProtectedRoute:
a Denied decision redirects to the unauthenticated entry route, any
other decision emits no redirect. -/
def authorizeRedirect (s : AuthState) (requiredRoles : List String) : Option String :=
  match authorize s requiredRoles with
  | AuthzDecision.Denied => some deniedRedirect
  | _ => none

/-- What the router renders at the /auth path. -/
inductive AuthRouteView where
  | redirect (target : String) (replace : Bool)
  | authPage
deriving DecidableEq

/-- The /auth route element (App.tsx lines 110 to 112): when the
session is authenticated it renders a Navigate to /dashboard with
replace semantics, otherwise the Auth page. -/
def authRouteElement (isAuthenticated : Bool) : AuthRouteView :=
  if isAuthenticated = true then
    AuthRouteView.redirect ("/dashboard") true
  else
    AuthRouteView.authPage

/-! Concrete fixtures used by the witness theorems. -/

def adminUser : User := { id := 7, role := "Admin", password := "x" }

def orgUser : User := { id := 9, role := "Organisation", password := "y" }

def tok123 : String := "tok-123"

/-- An environment where the token resolves under both domains. -/
def envBoth : Env :=
  { storage := some tok123,
    verifyToken := fun _ => Except.ok (some adminUser),
    verifyOrgToken := fun _ => Except.ok (some orgUser) }

/-- An environment with empty persistent storage. -/
def envEmpty : Env :=
  { storage := none,
    verifyToken := fun _ => Except.ok none,
    verifyOrgToken := fun _ => Except.ok none }

/-- An environment where both domains return null for every token. -/
def envReject : Env :=
  { storage := some tok123,
    verifyToken := fun _ => Except.ok none,
    verifyOrgToken := fun _ => Except.ok none }

/-- An environment where the user-domain endpoint throws and the
organisation-domain endpoint would resolve the token. -/
def envUserThrows : Env :=
  { storage := some tok123,
    verifyToken := fun _ => Except.error (),
    verifyOrgToken := fun _ => Except.ok (some orgUser) }

/-- Claim C2: when persistent storage holds no token, a bootstrap run
from a session state without a resolved identity ends with identity
None and loading false, and issues no verification calls. -/
theorem C2_no_token (env : Env) (s : AuthState)
    (hstore : env.storage = none) (huser : s.user = none) :
    (initAuth env s).state.user = none ∧
    (initAuth env s).state.isLoading = false ∧
    (initAuth env s).calls = [] := by
  simp [initAuth, hstore, finishInitialLoad, huser]

/-- Witness for C2 at the empty environment and the initial state. -/
theorem C2_no_token_witness :
    envEmpty.storage = none ∧ initialAuthState.user = none ∧
    ((initAuth envEmpty initialAuthState).state.user = none ∧
     (initAuth envEmpty initialAuthState).state.isLoading = false ∧
     (initAuth envEmpty initialAuthState).calls = []) :=
  ⟨rfl, rfl, C2_no_token envEmpty initialAuthState rfl rfl⟩

/-- Claim C5: every bootstrap run ends with the loading flag false,
whatever the environment, the starting state and the outcome. -/
theorem C5_loading_false (env : Env) (s : AuthState) :
    (initAuth env s).state.isLoading = false := by
  unfold initAuth
  cases henv : env.storage with
  | none => simp [finishInitialLoad]
  | some tok =>
    by_cases hc : tok = "" ∨ s.isAuthenticated = true
    · simp [hc, finishInitialLoad]
    · simp only [if_neg hc]
      cases hv : env.verifyToken tok with
      | error e => simp [finishInitialLoad]
      | ok o =>
        cases o with
        | some u => simp [setCredentials]
        | none =>
          cases hw : env.verifyOrgToken tok with
          | error e => simp [finishInitialLoad]
          | ok o2 =>
            cases o2 with
            | some u => simp [setCredentials]
            | none => simp [finishInitialLoad]

/-- Claim C7: the landing-route dispatch is a pure function of the
role: Admin maps to the admin tasks route, Organisation to the
organisation route, every other role to the user route; the prefetch
component of the dispatch never alters the returned route, and the
navigation emitted for a present user carries replace semantics. -/
theorem C7_landing (role : String)
    (hA : role ≠ "Admin") (hO : role ≠ "Organisation") :
    (dashboardRedirectRoute ("Admin")).1 = "/dashboard/admin/tasks" ∧
    (dashboardRedirectRoute ("Organisation")).1 = "/dashboard/organisation" ∧
    (dashboardRedirectRoute role).1 = "/dashboard/user" ∧
    (∀ u : UserPublic, dashboardRedirectNav (some u) =
        some { target := (dashboardRedirectRoute u.role).1, replace := true }) ∧
    dashboardRedirectNav none = none := by
  refine ⟨by decide, by decide, ?_, fun u => rfl, rfl⟩
  simp [dashboardRedirectRoute, hA, hO]

/-- Witness for C7 at a role outside the two special cases. -/
theorem C7_landing_witness :
    (dashboardRedirectRoute ("Team Member")).1 = "/dashboard/user" :=
  (C7_landing ("Team Member") (by decide) (by decide)).2.2.1

/-- Claim C10: at the /auth path an authenticated session renders a
replace-redirect to /dashboard, an unauthenticated session renders
the Auth page. -/
theorem C10_auth_route :
    authRouteElement true = AuthRouteView.redirect ("/dashboard") true ∧
    authRouteElement false = AuthRouteView.authPage :=
  ⟨rfl, rfl⟩

/-- A session state right after a successful admin login. -/
def adminSession : AuthState :=
  { isAuthenticated := true, isLoading := false,
    user := some (stripPassword adminUser), token := some tok123 }

/-- A state with loading over changes nothing under finishInitialLoad. -/
theorem finishInitialLoad_of_not_loading (s : AuthState) (h : s.isLoading = false) :
    finishInitialLoad s = s := by
  cases s
  simp_all [finishInitialLoad]

/-- Claim C1: with a stored nonempty token and an unauthenticated
session, the user-domain verification is issued first, the
organisation-domain verification is issued exactly when the
user-domain call returned null, and a token that resolves under both
domains stores the user-domain identity, never the organisation one. -/
theorem C1_precedence (env : Env) (s : AuthState) (tok : String)
    (hstore : env.storage = some tok) (htok : tok ≠ "")
    (hauth : s.isAuthenticated = false) :
    (initAuth env s).calls.head? = some (Call.user tok) ∧
    (Call.org tok ∈ (initAuth env s).calls ↔
      env.verifyToken tok = Except.ok none) ∧
    (∀ u v : User, env.verifyToken tok = Except.ok (some u) →
      env.verifyOrgToken tok = Except.ok (some v) →
      (initAuth env s).state.user = some (stripPassword u)) := by
  have hcond : ¬(tok = "" ∨ s.isAuthenticated = true) := by simp [htok, hauth]
  simp only [initAuth, hstore]
  rw [if_neg hcond]
  cases hv : env.verifyToken tok with
  | error e =>
    refine ⟨rfl, by simp [hv], ?_⟩
    intro u v hu hw
    simp at hu
  | ok o =>
    cases o with
    | some u0 =>
      refine ⟨rfl, by simp [hv], ?_⟩
      intro u v hu hw
      simp only [Except.ok.injEq, Option.some.injEq] at hu
      subst hu
      simp [setCredentials]
    | none =>
      cases hw : env.verifyOrgToken tok with
      | error e =>
        refine ⟨rfl, by simp [hv], ?_⟩
        intro u v hu hw2
        simp at hu
      | ok o2 =>
        cases o2 with
        | some w =>
          refine ⟨rfl, by simp [hv], ?_⟩
          intro u v hu hw2
          simp at hu
        | none =>
          refine ⟨rfl, by simp [hv], ?_⟩
          intro u v hu hw2
          simp at hu

/-- Witness for C1 at a token that resolves under both domains: the
stored identity is the user-domain result. -/
theorem C1_precedence_witness :
    (initAuth envBoth initialAuthState).state.user = some (stripPassword adminUser) :=
  (C1_precedence envBoth initialAuthState tok123 rfl (by decide) rfl).2.2
    adminUser orgUser rfl rfl

/-- Claim C3: with a stored nonempty token and an unauthenticated
session, whenever the user-domain call throws, or returns null and
the organisation-domain call throws or returns null, the token is
removed from storage and the session ends with identity None and
loading false. -/
theorem C3_fail_closed (env : Env) (s : AuthState) (tok : String)
    (hstore : env.storage = some tok) (htok : tok ≠ "")
    (hauth : s.isAuthenticated = false) (huser : s.user = none)
    (hfail : env.verifyToken tok = Except.error () ∨
      (env.verifyToken tok = Except.ok none ∧
        (env.verifyOrgToken tok = Except.error () ∨
         env.verifyOrgToken tok = Except.ok none))) :
    (initAuth env s).storage = none ∧
    (initAuth env s).state.user = none ∧
    (initAuth env s).state.isLoading = false := by
  have hcond : ¬(tok = "" ∨ s.isAuthenticated = true) := by simp [htok, hauth]
  simp only [initAuth, hstore]
  rw [if_neg hcond]
  rcases hfail with hu | ⟨hu, hw⟩
  · simp [hu, finishInitialLoad, huser]
  · rcases hw with hw | hw <;> simp [hu, hw, finishInitialLoad, huser]

/-- Witness for C3 at an environment where both domains return null. -/
theorem C3_fail_closed_witness :
    (initAuth envReject initialAuthState).storage = none ∧
    (initAuth envReject initialAuthState).state.user = none ∧
    (initAuth envReject initialAuthState).state.isLoading = false :=
  C3_fail_closed envReject initialAuthState tok123 rfl (by decide) rfl rfl
    (Or.inr ⟨rfl, Or.inr rfl⟩)

/-- Counterexample to claim C4 as stated: in an environment where the
user-domain verification throws and the organisation-domain
verification would resolve the token, the bootstrap issues no
organisation-domain call at all: the exception is caught, the token
is removed, and the session ends unauthenticated, even though the
organisation endpoint would have accepted the token. -/
theorem C4_counterexample :
    envUserThrows.verifyToken tok123 = Except.error () ∧
    envUserThrows.verifyOrgToken tok123 = Except.ok (some orgUser) ∧
    (initAuth envUserThrows initialAuthState).calls = [Call.user tok123] ∧
    Call.org tok123 ∉ (initAuth envUserThrows initialAuthState).calls ∧
    (initAuth envUserThrows initialAuthState).state.user = none ∧
    (initAuth envUserThrows initialAuthState).storage = none := by
  refine ⟨rfl, rfl, by decide, by decide, by decide, by decide⟩

/-- Claim C4 amended: a null result from the user-domain call
continues precedence into the organisation-domain call, but a thrown
exception in the user-domain call does not: it is caught, no
organisation-domain call is issued, the token is removed, and the
session ends with identity None and loading false. -/
theorem C4_amended (env : Env) (s : AuthState) (tok : String)
    (hstore : env.storage = some tok) (htok : tok ≠ "")
    (hauth : s.isAuthenticated = false) (huser : s.user = none) :
    (env.verifyToken tok = Except.ok none →
      Call.org tok ∈ (initAuth env s).calls) ∧
    (env.verifyToken tok = Except.error () →
      (initAuth env s).calls = [Call.user tok] ∧
      (initAuth env s).storage = none ∧
      (initAuth env s).state.user = none ∧
      (initAuth env s).state.isLoading = false) := by
  have hcond : ¬(tok = "" ∨ s.isAuthenticated = true) := by simp [htok, hauth]
  constructor
  · intro hu
    simp only [initAuth, hstore]
    rw [if_neg hcond, hu]
    cases hw : env.verifyOrgToken tok with
    | error e => simp
    | ok o => cases o <;> simp
  · intro hu
    simp only [initAuth, hstore]
    rw [if_neg hcond, hu]
    simp [finishInitialLoad, huser]

/-- Witness for the amended C4: a null user-domain result does reach
the organisation-domain call. -/
theorem C4_amended_witness :
    Call.org tok123 ∈ (initAuth envReject initialAuthState).calls :=
  (C4_amended envReject initialAuthState tok123 rfl (by decide) rfl rfl).1 rfl

/-- Claim C6: whenever the bootstrap accepts a verified identity, the
session stores the resolved account with its password field removed,
together with the original token; the stored record carries only the
public attributes. -/
theorem C6_password_stripped (env : Env) (s : AuthState) (tok : String) (u : User)
    (hstore : env.storage = some tok) (htok : tok ≠ "")
    (hauth : s.isAuthenticated = false)
    (hacc : env.verifyToken tok = Except.ok (some u) ∨
      (env.verifyToken tok = Except.ok none ∧
       env.verifyOrgToken tok = Except.ok (some u))) :
    (initAuth env s).state.user = some (stripPassword u) ∧
    (initAuth env s).state.token = some tok ∧
    stripPassword u = { id := u.id, role := u.role } := by
  have hcond : ¬(tok = "" ∨ s.isAuthenticated = true) := by simp [htok, hauth]
  simp only [initAuth, hstore]
  rw [if_neg hcond]
  rcases hacc with hu | ⟨hu, hw⟩
  · simp [hu, setCredentials, stripPassword]
  · simp [hu, hw, setCredentials, stripPassword]

/-- Witness for C6 at the user-domain acceptance path. -/
theorem C6_password_stripped_witness :
    (initAuth envBoth initialAuthState).state.user = some (stripPassword adminUser) ∧
    (initAuth envBoth initialAuthState).state.token = some tok123 :=
  ⟨(C6_password_stripped envBoth initialAuthState tok123 adminUser rfl (by decide) rfl
      (Or.inl rfl)).1,
   (C6_password_stripped envBoth initialAuthState tok123 adminUser rfl (by decide) rfl
      (Or.inl rfl)).2.1⟩

/-- Claim C8: with the session already authenticated (and loading
over, as it is after any completed run), the bootstrap issues no
verification call and leaves state and storage unchanged; in
particular a second run right after a successful accepting run makes
no additional network calls and changes nothing. -/
theorem C8_idempotent (env env2 : Env) (s : AuthState) :
    (s.isAuthenticated = true → s.isLoading = false →
      (initAuth env s).calls = [] ∧ (initAuth env s).state = s ∧
      (initAuth env s).storage = env.storage) ∧
    (∀ tok : String, ∀ u : User, env.storage = some tok → tok ≠ "" →
      s.isAuthenticated = false → env.verifyToken tok = Except.ok (some u) →
      (initAuth env2 (initAuth env s).state).calls = [] ∧
      (initAuth env2 (initAuth env s).state).state = (initAuth env s).state) := by
  constructor
  · intro ha hl
    have hfix := finishInitialLoad_of_not_loading s hl
    cases henv : env.storage with
    | none => simp [initAuth, henv, hfix]
    | some tok => simp [initAuth, henv, ha, hfix]
  · intro tok u hstore htok hauth hu
    have hrun : (initAuth env s).state = setCredentials (stripPassword u) tok s := by
      simp [initAuth, hstore, htok, hauth, hu]
    rw [hrun]
    have ha2 : (setCredentials (stripPassword u) tok s).isAuthenticated = true := rfl
    have hl2 : (setCredentials (stripPassword u) tok s).isLoading = false := rfl
    have hfix := finishInitialLoad_of_not_loading _ hl2
    cases henv2 : env2.storage with
    | none => simp [initAuth, henv2, hfix]
    | some tok2 => simp [initAuth, henv2, ha2, hfix]

/-- Witness for C8: a second bootstrap run after the accepting run on
envBoth issues no calls and leaves the session unchanged. -/
theorem C8_idempotent_witness :
    (initAuth envBoth (initAuth envBoth initialAuthState).state).calls = [] ∧
    (initAuth envBoth (initAuth envBoth initialAuthState).state).state =
      (initAuth envBoth initialAuthState).state :=
  (C8_idempotent envBoth envBoth initialAuthState).2 tok123 adminUser rfl
    (by decide) rfl rfl

/-- Claim C9: the authorizer returns Allowed exactly when the session
is not loading, holds a resolved identity, and that identity role is
among the required roles; it returns Unknown exactly while loading;
it returns Denied in every other case; and every Denied outcome,
unauthenticated and wrong-role alike, redirects to the single
unauthenticated entry route. -/
theorem C9_authorize (s : AuthState) (rs : List String) :
    (authorize s rs = AuthzDecision.Allowed ↔
      s.isLoading = false ∧ ∃ u : UserPublic, s.user = some u ∧ u.role ∈ rs) ∧
    (authorize s rs = AuthzDecision.Unknown ↔ s.isLoading = true) ∧
    (authorize s rs = AuthzDecision.Denied ↔
      (s.isLoading = false ∧ ∀ u : UserPublic, s.user = some u → u.role ∉ rs)) ∧
    (authorizeRedirect s rs = some deniedRedirect ↔
      authorize s rs = AuthzDecision.Denied) := by
  by_cases hl : s.isLoading = true
  · simp [authorize, authorizeRedirect, hl]
  · have hl2 : s.isLoading = false := by simpa using hl
    cases hu : s.user with
    | none => simp [authorize, authorizeRedirect, hl2, hu]
    | some u =>
      by_cases hm : u.role ∈ rs
      · simp [authorize, authorizeRedirect, hl2, hu, hm]
      · simp [authorize, authorizeRedirect, hl2, hu, hm]

/-- Witness for C9 on a resolved admin session. -/
theorem C9_authorize_witness :
    authorize adminSession ["Admin", "Organisation"] = AuthzDecision.Allowed :=
  (C9_authorize adminSession ["Admin", "Organisation"]).1.mpr
    ⟨rfl, stripPassword adminUser, rfl, by decide⟩
